import Mathlib

/-!
Shallow embedding of the interactive behaviour of `script.js` from the
theme-guide repository, together with theorems checking the natural-language
specification against it.  Each definition translates the corresponding piece
of the source; DOM state (classes, attributes, nodes) is represented
explicitly and each event handler becomes a function on that state.
-/

namespace ThemeGuide

/-! ## Mobile menu (`initMobileMenu`, script.js lines 10-61)

The menu state consists of the `active` class on `.nav__menu`, the
`menu-open` class on `document.body`, and the `aria-expanded` attribute of
`.nav__toggle` (an attribute may be absent, hence `Option String`). -/

structure MenuState where
  menuActive : Bool
  bodyMenuOpen : Bool
  ariaExpanded : Option String
  deriving DecidableEq, Repr

/-- `closeMenu` (lines 18-22): remove both classes, set `aria-expanded="false"`. -/
def closeMenu (_s : MenuState) : MenuState :=
  { menuActive := false, bodyMenuOpen := false, ariaExpanded := some "false" }

/-- `openMenu` (lines 24-28): add both classes, set `aria-expanded="true"`. -/
def openMenu (_s : MenuState) : MenuState :=
  { menuActive := true, bodyMenuOpen := true, ariaExpanded := some "true" }

/-- The events the menu handlers react to.  A body click carries whether the
event target lies inside `.nav__menu` resp. inside `.nav__toggle`; a keydown
carries the key string. -/
inductive MenuEvent where
  | toggleClick
  | linkClick
  | bodyClick (inMenu : Bool) (inToggle : Bool)
  | keydown (key : String)
  deriving DecidableEq, Repr

/-- One handler invocation (lines 30-60): toggle click branches on
`getAttribute('aria-expanded') === 'true'`; a nav-link click closes; a body
click closes only while `menu-open` is set and the target is outside menu and
toggle; Escape closes while `menu-open` is set. -/
def menuStep (s : MenuState) (e : MenuEvent) : MenuState :=
  match e with
  | MenuEvent.toggleClick =>
      if s.ariaExpanded == some "true" then closeMenu s else openMenu s
  | MenuEvent.linkClick => closeMenu s
  | MenuEvent.bodyClick inMenu inToggle =>
      if s.bodyMenuOpen && !inMenu && !inToggle then closeMenu s else s
  | MenuEvent.keydown key =>
      if key == "Escape" && s.bodyMenuOpen then closeMenu s else s

/-- The menu classes and the ARIA attribute agree: both classes coincide and
they hold exactly when `aria-expanded` is the string `"true"`. -/
def menuConsistent (s : MenuState) : Prop :=
  s.bodyMenuOpen = s.menuActive ∧ (s.menuActive = true ↔ s.ariaExpanded = some "true")

instance (s : MenuState) : Decidable (menuConsistent s) := by
  unfold menuConsistent; infer_instance

/-- C5: after any menu handler runs on a consistent state the open class and
`aria-expanded` still agree, and the toggle click opens a closed menu with
`aria-expanded="true"` resp. closes an open one with `aria-expanded="false"`. -/
theorem menu_state_aria_invariant (s : MenuState) (e : MenuEvent)
    (h : menuConsistent s) :
    menuConsistent (menuStep s e) ∧
    (s.menuActive = false →
      menuStep s MenuEvent.toggleClick =
        { menuActive := true, bodyMenuOpen := true, ariaExpanded := some "true" }) ∧
    (s.menuActive = true →
      menuStep s MenuEvent.toggleClick =
        { menuActive := false, bodyMenuOpen := false, ariaExpanded := some "false" }) := by
  obtain ⟨hb, ha⟩ := h
  refine ⟨?_, ?_, ?_⟩
  · cases e with
    | toggleClick =>
      by_cases hx : s.ariaExpanded = some "true" <;>
        simp [menuStep, closeMenu, openMenu, menuConsistent, hx]
    | linkClick => simp [menuStep, closeMenu, menuConsistent]
    | bodyClick inMenu inToggle =>
      by_cases hx : (s.bodyMenuOpen && !inMenu && !inToggle) = true
      · simp [menuStep, hx, closeMenu, menuConsistent]
      · simp only [menuStep]
        rw [if_neg (by simpa using hx)]
        exact ⟨hb, ha⟩
    | keydown key =>
      by_cases hx : (key == "Escape" && s.bodyMenuOpen) = true
      · simp [menuStep, hx, closeMenu, menuConsistent]
      · simp only [menuStep]
        rw [if_neg (by simpa using hx)]
        exact ⟨hb, ha⟩
  · intro hclosed
    have : ¬ s.ariaExpanded = some "true" := by
      intro hc; exact absurd (ha.mpr hc) (by simp [hclosed])
    simp [menuStep, openMenu, this]
  · intro hopen
    have : s.ariaExpanded = some "true" := ha.mp hopen
    simp [menuStep, closeMenu, this]

/-- Witness for C5 at the closed initial state and a toggle click. -/
theorem menu_state_aria_invariant_witness :
    menuConsistent { menuActive := false, bodyMenuOpen := false, ariaExpanded := some "false" } ∧
    (menuConsistent (menuStep { menuActive := false, bodyMenuOpen := false, ariaExpanded := some "false" } MenuEvent.toggleClick) ∧
     (({ menuActive := false, bodyMenuOpen := false, ariaExpanded := some "false" } : MenuState).menuActive = false →
       menuStep { menuActive := false, bodyMenuOpen := false, ariaExpanded := some "false" } MenuEvent.toggleClick =
         { menuActive := true, bodyMenuOpen := true, ariaExpanded := some "true" }) ∧
     (({ menuActive := false, bodyMenuOpen := false, ariaExpanded := some "false" } : MenuState).menuActive = true →
       menuStep { menuActive := false, bodyMenuOpen := false, ariaExpanded := some "false" } MenuEvent.toggleClick =
         { menuActive := false, bodyMenuOpen := false, ariaExpanded := some "false" })) :=
  ⟨by decide,
   menu_state_aria_invariant
     { menuActive := false, bodyMenuOpen := false, ariaExpanded := some "false" }
     MenuEvent.toggleClick (by decide)⟩

/-! ## Smooth scroll (`initSmoothScroll`, script.js lines 66-90) and
active-nav observer (`initActiveNavOnScroll`, lines 224-248)

A navigation link carries its `href` attribute and whether it currently has
the `active` class; a section element carries its `id` and `offsetTop`. -/

structure NavLink where
  href : String
  active : Bool
  deriving DecidableEq, Repr

structure SectionElem where
  id : String
  offsetTop : Int
  deriving DecidableEq, Repr

structure ScrollRequest where
  top : Int
  behavior : String
  deriving DecidableEq, Repr

/-- Outcome of one smooth-scroll click-handler invocation: whether
`e.preventDefault()` ran, the `window.scrollTo` request if any, the nav links
afterwards, and whether the handler threw. -/
structure ClickResult where
  defaultPrevented : Bool
  scroll : Option ScrollRequest
  links : List NavLink
  error : Bool
  deriving DecidableEq, Repr

/-- `link.getAttribute('href')` for the handler attached to the i-th link. -/
def linkHref (links : List NavLink) (i : Nat) : String :=
  ((links[i]?).map NavLink.href).getD ""

/-- `document.querySelector(targetId)` for a fragment selector `#id`: the
first section whose id matches. -/
def findSection (sections : List SectionElem) (sel : String) : Option SectionElem :=
  sections.find? (fun s => "#" ++ s.id == sel)

/-- Lines 85-86: `navLinks.forEach(l => l.classList.remove('active'))`
followed by `link.classList.add('active')` on the clicked (i-th) link. -/
def markActiveAt : List NavLink → Nat → List NavLink
  | [], _ => []
  | l :: rest, 0 =>
      { l with active := true } :: rest.map (fun x => { x with active := false })
  | l :: rest, Nat.succ i =>
      { l with active := false } :: markActiveAt rest i

/-- The click handler of `initSmoothScroll` (lines 70-88) for the i-th nav
link.  `e.preventDefault()` runs first, unconditionally.  If the fragment
target is missing the handler does nothing further.  Otherwise it reads
`document.querySelector('.nav').offsetHeight`; when no `.nav` element exists
(`nav = none`) that dereference of `null` throws a TypeError, recorded as
`error := true`.  With `.nav` present it requests a smooth scroll to
`offsetTop - navHeight - 20` and re-marks the active link. -/
def smoothScrollClick (nav : Option Int) (sections : List SectionElem)
    (links : List NavLink) (i : Nat) : ClickResult :=
  match findSection sections (linkHref links i) with
  | none => { defaultPrevented := true, scroll := none, links := links, error := false }
  | some sec =>
    match nav with
    | none => { defaultPrevented := true, scroll := none, links := links, error := true }
    | some navHeight =>
      { defaultPrevented := true
        scroll := some { top := sec.offsetTop - navHeight - 20, behavior := "smooth" }
        links := markActiveAt links i
        error := false }

/-- Lines 237-242: for an intersecting section with the given id, every link
loses `active` and regains it exactly when its href is `'#' + id`. -/
def navUpdate (id : String) (links : List NavLink) : List NavLink :=
  links.map (fun l => { l with active := l.href == "#" ++ id })

/-- An entry passed to the `initActiveNavOnScroll` observer callback. -/
structure ObserverEntry where
  targetId : String
  isIntersecting : Bool
  deriving DecidableEq, Repr

/-- The observer callback (lines 233-245): each intersecting entry rewrites
the active classes via `navUpdate`; non-intersecting entries are skipped. -/
def activeNavCallback (entries : List ObserverEntry) (links : List NavLink) :
    List NavLink :=
  entries.foldl
    (fun ls en => if en.isIntersecting then navUpdate en.targetId ls else ls) links

theorem countP_navUpdate (id : String) (links : List NavLink) :
    (navUpdate id links).countP (fun l => l.active) =
      links.countP (fun l => l.href == "#" ++ id) := by
  induction links with
  | nil => rfl
  | cons l rest ih =>
      simp only [navUpdate, List.map_cons, List.countP_cons] at *
      rw [ih]

theorem countP_markActiveAt (links : List NavLink) (i : Nat)
    (h : i < links.length) :
    (markActiveAt links i).countP (fun l => l.active) = 1 := by
  induction links generalizing i with
  | nil => simp at h
  | cons l rest ih =>
      cases i with
      | zero =>
          simp only [markActiveAt, List.countP_cons]
          have hz : (rest.map (fun x => { x with active := false })).countP
              (fun l => l.active) = 0 := by
            induction rest with
            | nil => rfl
            | cons r rs ihr => simp [List.countP_cons, ihr]
          simp [hz]
      | succ j =>
          have hj : j < rest.length := by simp at h; exact h
          simp only [markActiveAt, List.countP_cons]
          simp [ih j hj]

/-- C6: when the observer callback marks a section as in view, exactly one
nav link ends up `active` (the one whose href is `'#' + id`, assuming the
markup has exactly one such link), every active link matches the section id,
the callback acts on an intersecting entry via `navUpdate`, and no
smooth-scroll handler invocation leaves two links simultaneously active. -/
theorem active_nav_single_link (id : String) (links : List NavLink)
    (h1 : links.countP (fun l => l.href == "#" ++ id) = 1)
    (h2 : links.countP (fun l => l.active) ≤ 1) :
    (navUpdate id links).countP (fun l => l.active) = 1 ∧
    (∀ l ∈ navUpdate id links, l.active = true → l.href = "#" ++ id) ∧
    activeNavCallback [{ targetId := id, isIntersecting := true }] links =
      navUpdate id links ∧
    (∀ (nav : Option Int) (sections : List SectionElem) (i : Nat),
      i < links.length →
      (smoothScrollClick nav sections links i).links.countP
        (fun l => l.active) ≤ 1) := by
  refine ⟨?_, ?_, rfl, ?_⟩
  · rw [countP_navUpdate]; exact h1
  · intro l hl hact
    rw [navUpdate, List.mem_map] at hl
    obtain ⟨x, hx, rfl⟩ := hl
    exact eq_of_beq hact
  · intro nav sections i hi
    rcases hf : findSection sections (linkHref links i) with _ | sec
    · simpa [smoothScrollClick, hf] using h2
    · rcases nav with _ | navH
      · simpa [smoothScrollClick, hf] using h2
      · simp [smoothScrollClick, hf, countP_markActiveAt links i hi]

/-- Witness for C6 on a two-link nav with a unique `#colors` link. -/
theorem active_nav_single_link_witness :
    ([{ href := "#colors", active := false }, { href := "#typography", active := true }] :
        List NavLink).countP (fun l => l.href == "#" ++ "colors") = 1 ∧
    ([{ href := "#colors", active := false }, { href := "#typography", active := true }] :
        List NavLink).countP (fun l => l.active) ≤ 1 ∧
    ((navUpdate "colors"
        [{ href := "#colors", active := false }, { href := "#typography", active := true }]).countP
          (fun l => l.active) = 1 ∧
     (∀ l ∈ navUpdate "colors"
        [{ href := "#colors", active := false }, { href := "#typography", active := true }],
        l.active = true → l.href = "#" ++ "colors") ∧
     activeNavCallback [{ targetId := "colors", isIntersecting := true }]
        [{ href := "#colors", active := false }, { href := "#typography", active := true }] =
       navUpdate "colors"
        [{ href := "#colors", active := false }, { href := "#typography", active := true }] ∧
     (∀ (nav : Option Int) (sections : List SectionElem) (i : Nat),
       i < ([{ href := "#colors", active := false }, { href := "#typography", active := true }] :
          List NavLink).length →
       (smoothScrollClick nav sections
          [{ href := "#colors", active := false }, { href := "#typography", active := true }]
          i).links.countP (fun l => l.active) ≤ 1)) :=
  ⟨by decide, by decide,
   active_nav_single_link "colors"
     [{ href := "#colors", active := false }, { href := "#typography", active := true }]
     (by decide) (by decide)⟩

/-- C8: clicking a nav link whose fragment selector matches no section
requests no scroll and raises no error. -/
theorem missing_target_no_scroll_no_error (nav : Option Int)
    (sections : List SectionElem) (links : List NavLink) (i : Nat)
    (h : findSection sections (linkHref links i) = none) :
    (smoothScrollClick nav sections links i).scroll = none ∧
    (smoothScrollClick nav sections links i).error = false := by
  simp [smoothScrollClick, h]

/-- Witness for C8: a `#missing` link with only a `colors` section present. -/
theorem missing_target_no_scroll_no_error_witness :
    findSection [{ id := "colors", offsetTop := 400 }]
      (linkHref [{ href := "#missing", active := false }] 0) = none ∧
    ((smoothScrollClick (some 64) [{ id := "colors", offsetTop := 400 }]
        [{ href := "#missing", active := false }] 0).scroll = none ∧
     (smoothScrollClick (some 64) [{ id := "colors", offsetTop := 400 }]
        [{ href := "#missing", active := false }] 0).error = false) :=
  ⟨by decide,
   missing_target_no_scroll_no_error (some 64) [{ id := "colors", offsetTop := 400 }]
     [{ href := "#missing", active := false }] 0 (by decide)⟩

/-- C10: `e.preventDefault()` runs unconditionally, before the target-existence
check, so default fragment navigation never happens; and with a missing target
the nav links (their `active` classes included) are left unchanged. -/
theorem prevent_default_unconditional (nav : Option Int)
    (sections : List SectionElem) (links : List NavLink) (i : Nat)
    (h : findSection sections (linkHref links i) = none) :
    (∀ (nav' : Option Int) (sections' : List SectionElem)
       (links' : List NavLink) (j : Nat),
       (smoothScrollClick nav' sections' links' j).defaultPrevented = true) ∧
    (smoothScrollClick nav sections links i).links = links := by
  constructor
  · intro nav' sections' links' j
    rcases hf : findSection sections' (linkHref links' j) with _ | sec
    · simp [smoothScrollClick, hf]
    · rcases nav' with _ | navH <;> simp [smoothScrollClick, hf]
  · simp [smoothScrollClick, h]

/-- Witness for C10: a `#nowhere` link with no sections in the document. -/
theorem prevent_default_unconditional_witness :
    findSection [] (linkHref [{ href := "#nowhere", active := true }] 0) = none ∧
    ((∀ (nav' : Option Int) (sections' : List SectionElem)
        (links' : List NavLink) (j : Nat),
        (smoothScrollClick nav' sections' links' j).defaultPrevented = true) ∧
     (smoothScrollClick (some 48) [] [{ href := "#nowhere", active := true }] 0).links =
       [{ href := "#nowhere", active := true }]) :=
  ⟨by decide,
   prevent_default_unconditional (some 48) [] [{ href := "#nowhere", active := true }] 0
     (by decide)⟩

/-! ## Initializer behaviour at init time (C2) -/

/-- What an initializer does at init time: how many listeners it attaches and
whether it throws. -/
structure InitResult where
  listeners : Nat
  error : Bool
  deriving DecidableEq, Repr

/-- `initMobileMenu` at init time (lines 10-16, 30, 40-44, 47, 56): the guard
at line 16 returns before attaching anything when `.nav__toggle` is missing;
otherwise one listener on the toggle, one per nav link, one on body and one
on document.  No dereference at init time can throw. -/
def initMobileMenuSetup (navToggle : Bool) (navLinkCount : Nat) : InitResult :=
  if navToggle then { listeners := navLinkCount + 3, error := false }
  else { listeners := 0, error := false }

/-- `initSmoothScroll` at init time (lines 66-70): one click listener per nav
link; nothing else happens until a click. -/
def initSmoothScrollSetup (navLinkCount : Nat) : InitResult :=
  { listeners := navLinkCount, error := false }

/-- `initColorCopy` at init time (lines 128-133): one click listener (and a
cursor style) per `.color-card`. -/
def initColorCopySetup (cardCount : Nat) : InitResult :=
  { listeners := cardCount, error := false }

/-- A color-card click handler (lines 133-143): it dereferences
`card.querySelector('.color-card__value').textContent`; a card without a
value child makes that a null dereference (TypeError), otherwise the text is
handed to `navigator.clipboard.writeText`. -/
def colorCardClick (value : Option String) : Except String String :=
  match value with
  | none => Except.error "TypeError"
  | some v => Except.ok v

/-- Counterexample to C2: with `.nav` absent but a nav link and its target
section present, the smooth-scroll click handler throws (it dereferences
`document.querySelector('.nav').offsetHeight` on null, line 76); likewise a
`.color-card` without a `.color-card__value` child makes its click handler
throw (line 134).  A missing dependent element does not make the installed
handlers no-ops. -/
theorem missing_nav_handler_error :
    (smoothScrollClick none [{ id := "features", offsetTop := 500 }]
      [{ href := "#features", active := false }] 0).error = true ∧
    colorCardClick none = Except.error "TypeError" :=
  ⟨by decide, rfl⟩

/-- C2 amended: at init time the absence of the elements each initializer
queries directly makes it a no-op with no error (missing `.nav__toggle`
short-circuits the menu initializer; no links or cards means no listeners);
but handlers installed when those elements exist can still throw later when
an element they dereference at event time is missing (`.nav` during a
smooth-scroll click with an existing target, or a `.color-card` lacking a
`.color-card__value` child). -/
theorem init_noop_on_missing_elements (navLinkCount cardCount : Nat) :
    initMobileMenuSetup false navLinkCount = { listeners := 0, error := false } ∧
    initSmoothScrollSetup 0 = { listeners := 0, error := false } ∧
    initColorCopySetup 0 = { listeners := 0, error := false } ∧
    initMobileMenuSetup true navLinkCount =
      { listeners := navLinkCount + 3, error := false } ∧
    initSmoothScrollSetup navLinkCount = { listeners := navLinkCount, error := false } ∧
    initColorCopySetup cardCount = { listeners := cardCount, error := false } ∧
    (smoothScrollClick none [{ id := "features", offsetTop := 500 }]
      [{ href := "#features", active := false }] 0).error = true ∧
    colorCardClick none = Except.error "TypeError" := by
  refine ⟨rfl, rfl, rfl, ?_, rfl, rfl, by decide, rfl⟩
  simp [initMobileMenuSetup]

/-! ## Toast notification (`showToast`, lines 150-194) and copy success -/

/-- The toast message template at line 139. -/
def toastMessage (colorValue : String) : String :=
  "Copied " ++ colorValue ++ " to clipboard!"

/-- Effect of `showToast` on the toast nodes in the document, in document
order (lines 152-155, 180): `document.querySelector('.toast')` yields the
first toast, which is removed if present; the new toast is appended. -/
def showToast (message : String) (toasts : List String) : List String :=
  toasts.tail ++ [message]

/-- The delayed removal at lines 189-193: `toast.remove()` on a specific
node, a no-op when that node is no longer in the document. -/
def toastRemove (t : String) (toasts : List String) : List String :=
  toasts.erase t

/-- The clipboard-write success continuation (lines 137-139): exactly one
`showToast` call with the template message. -/
def colorCopySuccess (colorValue : String) (toasts : List String) : List String :=
  showToast (toastMessage colorValue) toasts

theorem tail_eq_nil_of_length_le_one {α : Type} (ts : List α)
    (h : ts.length ≤ 1) : ts.tail = [] := by
  cases ts with
  | nil => rfl
  | cons a t =>
      cases t with
      | nil => rfl
      | cons b u => simp at h

/-- C7: a successful color copy yields exactly one toast with the template
text; `showToast` keeps at most one toast node in the document, and the
delayed removal never increases the count. -/
theorem color_copy_single_toast (colorValue : String) (toasts : List String)
    (h : toasts.length ≤ 1) :
    colorCopySuccess colorValue toasts =
      ["Copied " ++ colorValue ++ " to clipboard!"] ∧
    (colorCopySuccess colorValue toasts).length = 1 ∧
    (∀ (m : String) (ts : List String), ts.length ≤ 1 →
      (showToast m ts).length = 1) ∧
    (∀ (t : String) (ts : List String), ts.length ≤ 1 →
      (toastRemove t ts).length ≤ 1) := by
  refine ⟨?_, ?_, ?_, ?_⟩
  · simp [colorCopySuccess, showToast, toastMessage,
      tail_eq_nil_of_length_le_one toasts h]
  · simp [colorCopySuccess, showToast, tail_eq_nil_of_length_le_one toasts h]
  · intro m ts hts
    simp [showToast, tail_eq_nil_of_length_le_one ts hts]
  · intro t ts hts
    calc (toastRemove t ts).length ≤ ts.length := List.length_erase_le t ts
      _ ≤ 1 := hts

/-- Witness for C7: copying `#6366f1` while an earlier toast is visible. -/
theorem color_copy_single_toast_witness :
    (["Copied #10b981 to clipboard!"] : List String).length ≤ 1 ∧
    (colorCopySuccess "#6366f1" ["Copied #10b981 to clipboard!"] =
      ["Copied " ++ "#6366f1" ++ " to clipboard!"] ∧
     (colorCopySuccess "#6366f1" ["Copied #10b981 to clipboard!"]).length = 1 ∧
     (∀ (m : String) (ts : List String), ts.length ≤ 1 →
       (showToast m ts).length = 1) ∧
     (∀ (t : String) (ts : List String), ts.length ≤ 1 →
       (toastRemove t ts).length ≤ 1)) :=
  ⟨by decide,
   color_copy_single_toast "#6366f1" ["Copied #10b981 to clipboard!"] (by decide)⟩

/-! ## Scroll-triggered reveal (`initScrollAnimations`, lines 95-123) -/

/-- The inline style of a `.section` element; `none` is an unset property,
i.e. the default visible styling from the stylesheet. -/
structure SectionStyle where
  opacity : Option String
  transform : Option String
  transition : Option String
  deriving DecidableEq, Repr

/-- Lines 118-120: the hidden initial styling given to each `.section`. -/
def hideSection (_s : SectionStyle) : SectionStyle :=
  { opacity := some "0", transform := some "translateY(20px)",
    transition := some "opacity 0.6s ease-out, transform 0.6s ease-out" }

/-- Lines 108-111: the reveal applied to an observed section once it
intersects. -/
def revealSection (s : SectionStyle) : SectionStyle :=
  { s with opacity := some "1", transform := some "translateY(0)" }

/-- Result of running `initScrollAnimations`: the `.section` styles and how
many sections were handed to `observer.observe`. -/
structure ScrollAnimSetup where
  sections : List SectionStyle
  observedCount : Nat
  deriving DecidableEq, Repr

/-- `initScrollAnimations` (lines 95-123): when the reduced-motion media
query matches, the function returns at line 99 before creating the observer
or touching any section; otherwise every `.section` gets the hidden styling
and is observed. -/
def initScrollAnimations (prefersReducedMotion : Bool)
    (sections : List SectionStyle) : ScrollAnimSetup :=
  if prefersReducedMotion then { sections := sections, observedCount := 0 }
  else { sections := sections.map hideSection, observedCount := sections.length }

/-- C9: with reduced motion set at init time the scroll-animation
initializer does nothing: no section is restyled (all keep their default
visible styling) and nothing is observed; without it every section is hidden
and observed, for contrast. -/
theorem reduced_motion_disables_reveal (sections : List SectionStyle) :
    initScrollAnimations true sections =
      { sections := sections, observedCount := 0 } ∧
    (initScrollAnimations true sections).sections = sections ∧
    (initScrollAnimations true sections).observedCount = 0 ∧
    (initScrollAnimations false sections).observedCount = sections.length := by
  refine ⟨rfl, rfl, rfl, rfl⟩

/-! ## Animation demo restart (`initAnimationDemos`, lines 199-219) -/

/-- The whole script body runs under the IIFE's `'use strict'` directive
(lines 4-5), so every function literal in it is a strict-mode function. -/
def scriptStrictMode : Bool := true

/-- ECMAScript semantics of `arguments.callee`: a strict-mode function gets
an unmapped arguments object whose `callee` property is the poison-pill
accessor `%ThrowTypeError%`, so reading it throws a TypeError; in sloppy
mode it yields the enclosing function. -/
def argumentsCallee (strict : Bool) : Except String Unit :=
  if strict then Except.error "TypeError" else Except.ok ()

/-- Observable outcome of one `.animation-box` click-handler invocation. -/
structure DemoClickResult where
  replacedByClone : Bool
  listenerReattached : Bool
  scaleFeedback : Bool
  thrown : Option String
  deriving DecidableEq, Repr

/-- The `.animation-box` click handler (lines 203-217), in order:
`parent.replaceChild(clone, this)` runs first (the box is replaced by its
clone, which carries no listeners), then
`clone.addEventListener('click', arguments.callee)` evaluates
`arguments.callee`; if that throws, the handler aborts before re-attaching
the listener and before the `scale(0.95)` feedback at lines 213-216. -/
def animationBoxClick (strict : Bool) : DemoClickResult :=
  let afterReplace : DemoClickResult :=
    { replacedByClone := true, listenerReattached := false,
      scaleFeedback := false, thrown := none }
  match argumentsCallee strict with
  | Except.error e => { afterReplace with thrown := some e }
  | Except.ok _ =>
      { afterReplace with listenerReattached := true, scaleFeedback := true }

/-- C1: under the script's `'use strict'` directive a click on an
animation-demo box throws a TypeError at `arguments.callee` (line 210) after
the box has been replaced: the handler is never re-attached to the clone
(further clicks are dead) and the scale-down feedback never plays,
contradicting the claimed error-free restart behaviour and the code's own
comment at line 209. -/
theorem animation_demo_click_throws :
    (animationBoxClick scriptStrictMode).thrown = some "TypeError" ∧
    (animationBoxClick scriptStrictMode).listenerReattached = false ∧
    (animationBoxClick scriptStrictMode).scaleFeedback = false ∧
    (animationBoxClick scriptStrictMode).replacedByClone = true := by
  decide

/-! ## Startup sequencing (`init`, lines 322-352) -/

/-- The features wired by the script; `themeToggle` names the dark-mode
feature the spec attributes to the script. -/
inductive Feature where
  | mobileMenu
  | smoothScroll
  | scrollAnimations
  | colorCopy
  | animationDemos
  | activeNavOnScroll
  | buttonRipple
  | perfMonitor
  | themeToggle
  deriving DecidableEq, Repr

/-- Lines 333-334: the initializers `init` calls immediately. -/
def immediateFeatures : List Feature :=
  [Feature.mobileMenu, Feature.smoothScroll]

/-- Lines 337-344: the initializers run inside the idle callback. -/
def idleFeatures : List Feature :=
  [Feature.scrollAnimations, Feature.colorCopy, Feature.animationDemos,
   Feature.activeNavOnScroll, Feature.buttonRipple, Feature.perfMonitor]

/-- How the deferred batch is scheduled. -/
inductive IdleSchedule where
  | idleCallback
  | timeoutFallback (ms : Nat)
  deriving DecidableEq, Repr

/-- `initWhenIdle` (lines 324-330): `requestIdleCallback` when available,
else `setTimeout(callback, 1)`. -/
def initWhenIdle (hasRequestIdleCallback : Bool) : IdleSchedule :=
  if hasRequestIdleCallback then IdleSchedule.idleCallback
  else IdleSchedule.timeoutFallback 1

/-- Lines 348-352: `init` is deferred to `DOMContentLoaded` only while the
document is still loading, else it runs at once. -/
def deferredToDOMContentLoaded (readyState : String) : Bool :=
  readyState == "loading"

/-- Counterexample to C3: no theme-toggle initializer exists in `script.js`
at all — it is neither in the immediate tier nor in the idle tier; only the
menu toggle and smooth scroll run immediately. -/
theorem theme_toggle_not_scheduled :
    Feature.themeToggle ∉ immediateFeatures ∧
    Feature.themeToggle ∉ idleFeatures ∧
    immediateFeatures = [Feature.mobileMenu, Feature.smoothScroll] := by
  decide

/-- C3 amended: exactly the menu-toggle and smooth-scroll initializers run
immediately; reveal animation, copy-to-clipboard, demo restart, active-nav
highlight, ripple and the performance log run inside the idle callback, with
a 1ms `setTimeout` fallback when `requestIdleCallback` is unavailable; the
script contains no theme-toggle initializer, and `init` itself waits for
`DOMContentLoaded` only while the document is still loading. -/
theorem startup_two_tier :
    immediateFeatures = [Feature.mobileMenu, Feature.smoothScroll] ∧
    idleFeatures =
      [Feature.scrollAnimations, Feature.colorCopy, Feature.animationDemos,
       Feature.activeNavOnScroll, Feature.buttonRipple, Feature.perfMonitor] ∧
    initWhenIdle true = IdleSchedule.idleCallback ∧
    initWhenIdle false = IdleSchedule.timeoutFallback 1 ∧
    Feature.themeToggle ∉ immediateFeatures ++ idleFeatures ∧
    deferredToDOMContentLoaded "loading" = true ∧
    deferredToDOMContentLoaded "interactive" = false := by
  decide

/-! ## Theme toggle -/

/-- The theme-relevant document state: the localStorage value under the key
`"theme"` and the `data-theme` attribute on the document element. -/
structure ThemeState where
  storage : Option String
  docTheme : Option String
  deriving DecidableEq, Repr

/-- Modelled from the spec: the theme-toggle load path of the later-variant
script (absent from the `script.js` provided here) — the stored preference,
defaulting to `"light"`, is read from localStorage and applied as the
document-level `data-theme` attribute. -/
def themeLoad (storage : Option String) : ThemeState :=
  { storage := storage, docTheme := some (storage.getD "light") }

/-- Modelled from the spec: the theme-toggle click handler of the
later-variant script — the current `data-theme` value is flipped between
`"light"` and `"dark"`, re-applied as the attribute, and persisted under the
storage key. -/
def themeToggleClick (s : ThemeState) : ThemeState :=
  let newTheme := if s.docTheme == some "light" then "dark" else "light"
  { storage := some newTheme, docTheme := some newTheme }

/-- C4: at load the stored preference (default `"light"`) is applied as the
document attribute; a toggle from `"light"` persists and applies `"dark"`
and vice versa; and reloading re-applies exactly the persisted value. -/
theorem theme_toggle_flip_persist_reload (s : ThemeState) :
    (themeLoad none).docTheme = some "light" ∧
    (∀ v : String, (themeLoad (some v)).docTheme = some v) ∧
    themeToggleClick { s with docTheme := some "light" } =
      { storage := some "dark", docTheme := some "dark" } ∧
    themeToggleClick { s with docTheme := some "dark" } =
      { storage := some "light", docTheme := some "light" } ∧
    (themeLoad (themeToggleClick s).storage).docTheme =
      (themeToggleClick s).docTheme := by
  refine ⟨rfl, fun v => rfl, ?_, ?_, rfl⟩
  · have h : ((some "light" : Option String) == some "light") = true := by decide
    simp [themeToggleClick, h]
  · have h : ((some "dark" : Option String) == some "light") = false := by decide
    simp [themeToggleClick, h]

end ThemeGuide
